import Mathlib

/-!
A shallow embedding of the DataFactory 2.0 job orchestration engine
(`job_manager.py`, `connectors.py`, `datafactory_cli.py`, `api.py`).

Timestamps are modelled as a logical clock (`Nat`) that advances on every
`datetime.now()` call, so successive timestamps within one execution are
strictly increasing.  Configuration mappings and data rows are association
lists of strings.  SQLite autoincrement ids are a counter in the state.
External database systems (ODBC / PostgreSQL / MySQL) are outside the
repository; their observable outcomes are a parameter (`ExtBehavior`).
-/

namespace DataFactory

/-- A data row: a mapping from field names to values (a pandas record). -/
abbrev Row := List (String × String)

/-- Configuration mapping for a connector (Python `Dict`). -/
abbrev Config := List (String × String)

/-- Look up a key in an association list (first binding wins). -/
def lookup (m : List (String × α)) (k : String) : Option α :=
  match m with
  | [] => none
  | (k₂, v) :: rest => if k₂ = k then some v else lookup rest k

/-- Replace the binding of `k` by `v`, appending if absent (dict update). -/
def setAssoc (m : List (String × α)) (k : String) (v : α) : List (String × α) :=
  match m with
  | [] => [(k, v)]
  | (k₂, w) :: rest => if k₂ = k then (k₂, v) :: rest else (k₂, w) :: setAssoc rest k v

/-- Status of a `job_history` row: `'running'`, `'success'` or `'failed'`. -/
inductive RunStatus where
  | running
  | success
  | failed
deriving DecidableEq, Repr

/-- Log level of a `job_logs` row: `'INFO'` or `'ERROR'`. -/
inductive LogLevel where
  | INFO
  | ERROR
deriving DecidableEq, Repr

/-- A row of the `jobs` table. -/
structure Job where
  job_id : Nat
  job_name : String
  source_type : String
  source_config : Config
  sink_type : String
  sink_config : Config
  query : Option String
  schedule : Option String
  enabled : Bool
  created_at : Nat
  updated_at : Nat
deriving DecidableEq, Repr

/-- A row of the `job_history` table. -/
structure HistoryRecord where
  history_id : Nat
  job_id : Nat
  job_name : String
  started_at : Nat
  completed_at : Option Nat
  status : RunStatus
  records_processed : Option Nat
  error_message : Option String
deriving DecidableEq, Repr

/-- A row of the `job_logs` table. -/
structure LogEntry where
  log_id : Nat
  history_id : Nat
  job_id : Nat
  timestamp : Nat
  level : LogLevel
  message : String
deriving DecidableEq, Repr

/-- One modelled database or workbook: object name to rows. -/
abbrev Tables := List (String × List Row)

instance instDecEqTables : DecidableEq Tables :=
  fun a b => inferInstanceAs (Decidable (a = b))

instance instDecEqTablesMap : DecidableEq (List (String × Tables)) :=
  fun a b => inferInstanceAs (Decidable (a = b))

/-- The persistent state: the three SQLite tables of `job_manager.py` with
their autoincrement counters, the logical clock, plus the modelled outside
world: flat files (csv/json, parsed contents) keyed by path, Excel
workbooks keyed by path (sheet name to rows), and SQLite sink databases
keyed by database path (table name to rows). -/
structure DFState where
  nextJobId : Nat
  jobs : List Job
  nextHistoryId : Nat
  history : List HistoryRecord
  nextLogId : Nat
  logs : List LogEntry
  clock : Nat
  files : List (String × List Row)
  excelFiles : List (String × Tables)
  sinkDBs : List (String × Tables)
deriving DecidableEq, Repr

/-- Fresh state over an empty database (after `_init_database`); SQLite
AUTOINCREMENT hands out ids starting from 1. -/
def initState : DFState :=
  { nextJobId := 1, jobs := [], nextHistoryId := 1, history := [],
    nextLogId := 1, logs := [], clock := 0,
    files := [], excelFiles := [], sinkDBs := [] }

/-- `datetime.now()`: read the clock and advance it. -/
def tick (st : DFState) : Nat × DFState :=
  (st.clock, { st with clock := st.clock + 1 })

/-! ## Connector construction (`_create_source_connector` / `_create_sink_connector`)

Each concrete connector class has a fixed `__init__` signature; the
managers call `Cls(**config)`.  Python keyword binding rejects a key not
in the signature (`TypeError: unexpected keyword argument`) and rejects a
call that leaves a required parameter unbound (`TypeError: missing
required argument`).  The unexpected-keyword check fires first. -/

/-- One `__init__` parameter: name and whether it is required (no default). -/
structure PyParam where
  pname : String
  required : Bool
deriving DecidableEq, Repr

def mkParam (n : String) (r : Bool) : PyParam := ⟨n, r⟩

/-- Error text for an unexpected keyword argument. -/
def unexpectedKwargMsg (cls k : String) : String :=
  cls ++ ".__init__() got an unexpected keyword argument: " ++ k

/-- Error text for missing required arguments, naming every missing key. -/
def missingArgMsg (cls : String) (ks : List String) : String :=
  cls ++ ".__init__() missing required arguments: " ++ String.intercalate ", " ks

/-- Python keyword binding of a config dict against a signature: the first
unknown key raises, then any unbound required parameter raises. -/
def bindKwargs (cls : String) (params : List PyParam) (cfg : Config) :
    Except String Unit :=
  match cfg.find? (fun kv => ¬ params.any (fun p => p.pname = kv.1)) with
  | some kv => .error (unexpectedKwargMsg cls kv.1)
  | none =>
    match (params.filter
        (fun p => p.required ∧ ¬ cfg.any (fun kv => kv.1 = p.pname))).map
        (fun p => p.pname) with
    | [] => .ok ()
    | ks => .error (missingArgMsg cls ks)

/-- A constructed (not yet connected) source connector. -/
inductive SrcConn where
  | csv (file_path : String)
  | json (file_path : String)
  | excel (file_path : String) (sheet_name : Option String)
  | ext (tag : String) (cfg : Config)
deriving DecidableEq, Repr

/-- A constructed (not yet connected) sink connector. -/
inductive SnkConn where
  | sqlite (database_path : String)
  | csvDir (directory : String)
  | jsonDir (directory : String)
  | parquetDir (directory : String)
  | ext (tag : String) (cfg : Config)
deriving DecidableEq, Repr

def odbcSrcParams : List PyParam :=
  [mkParam "dsn" true, mkParam "database" true, mkParam "schema" false]
def pgSrcParams : List PyParam :=
  [mkParam "host" true, mkParam "port" true, mkParam "database" true,
   mkParam "user" true, mkParam "password" true, mkParam "schema" false]
def mysqlSrcParams : List PyParam :=
  [mkParam "host" true, mkParam "port" true, mkParam "database" true,
   mkParam "user" true, mkParam "password" true]
def csvSrcParams : List PyParam := [mkParam "file_path" true]
def jsonSrcParams : List PyParam := [mkParam "file_path" true]
def excelSrcParams : List PyParam :=
  [mkParam "file_path" true, mkParam "sheet_name" false]

def sqliteSnkParams : List PyParam := [mkParam "database_path" true]
def pgSnkParams : List PyParam :=
  [mkParam "host" true, mkParam "port" true, mkParam "database" true,
   mkParam "user" true, mkParam "password" true]
def mysqlSnkParams : List PyParam := pgSnkParams
def csvSnkParams : List PyParam := [mkParam "directory" true]
def jsonSnkParams : List PyParam := [mkParam "directory" true]
def parquetSnkParams : List PyParam := [mkParam "directory" true]

/-- `JobManager._create_source_connector`. -/
def createSourceConnector (source_type : String) (cfg : Config) :
    Except String SrcConn :=
  if source_type = "odbc" then
    (bindKwargs "ODBCSourceConnector" odbcSrcParams cfg).map
      (fun _ => .ext "odbc" cfg)
  else if source_type = "postgresql" then
    (bindKwargs "PostgreSQLSourceConnector" pgSrcParams cfg).map
      (fun _ => .ext "postgresql" cfg)
  else if source_type = "mysql" then
    (bindKwargs "MySQLSourceConnector" mysqlSrcParams cfg).map
      (fun _ => .ext "mysql" cfg)
  else if source_type = "csv" then
    (bindKwargs "CSVSourceConnector" csvSrcParams cfg).map
      (fun _ => .csv ((lookup cfg "file_path").getD ""))
  else if source_type = "json" then
    (bindKwargs "JSONSourceConnector" jsonSrcParams cfg).map
      (fun _ => .json ((lookup cfg "file_path").getD ""))
  else if source_type = "excel" then
    (bindKwargs "ExcelSourceConnector" excelSrcParams cfg).map
      (fun _ => .excel ((lookup cfg "file_path").getD "") (lookup cfg "sheet_name"))
  else
    .error ("Unknown source type: " ++ source_type)

/-- `JobManager._create_sink_connector`. -/
def createSinkConnector (sink_type : String) (cfg : Config) :
    Except String SnkConn :=
  if sink_type = "sqlite" then
    (bindKwargs "SQLiteSinkConnector" sqliteSnkParams cfg).map
      (fun _ => .sqlite ((lookup cfg "database_path").getD ""))
  else if sink_type = "postgresql" then
    (bindKwargs "PostgreSQLSinkConnector" pgSnkParams cfg).map
      (fun _ => .ext "postgresql" cfg)
  else if sink_type = "mysql" then
    (bindKwargs "MySQLSinkConnector" mysqlSnkParams cfg).map
      (fun _ => .ext "mysql" cfg)
  else if sink_type = "csv" then
    (bindKwargs "CSVSinkConnector" csvSnkParams cfg).map
      (fun _ => .csvDir ((lookup cfg "directory").getD ""))
  else if sink_type = "json" then
    (bindKwargs "JSONSinkConnector" jsonSnkParams cfg).map
      (fun _ => .jsonDir ((lookup cfg "directory").getD ""))
  else if sink_type = "parquet" then
    (bindKwargs "ParquetSinkConnector" parquetSnkParams cfg).map
      (fun _ => .parquetDir ((lookup cfg "directory").getD ""))
  else
    .error ("Unknown sink type: " ++ sink_type)

/-! ## JobStore operations (`JobManager` CRUD)

`create_job` runs a plain INSERT; the only thing that can reject it is the
SQLite `UNIQUE` constraint on `job_name` (there is no field validation in
the code).  `enabled` defaults to 1. -/

/-- `JobManager.create_job`. -/
def create_job (st : DFState) (job_name source_type : String)
    (source_config : Config) (sink_type : String) (sink_config : Config)
    (query schedule : Option String) : Except String (Nat × DFState) :=
  if st.jobs.any (fun j => j.job_name = job_name) then
    .error "UNIQUE constraint failed: jobs.job_name"
  else
    let (now, st1) := tick st
    let jid := st1.nextJobId
    let job : Job :=
      { job_id := jid, job_name := job_name, source_type := source_type,
        source_config := source_config, sink_type := sink_type,
        sink_config := sink_config, query := query, schedule := schedule,
        enabled := true, created_at := now, updated_at := now }
    .ok (jid, { st1 with nextJobId := jid + 1, jobs := st1.jobs ++ [job] })

/-- `JobManager.get_job`. -/
def get_job (st : DFState) (job_id : Nat) : Option Job :=
  st.jobs.find? (fun j => j.job_id = job_id)

/-- A partial update: `some` marks a provided keyword argument.  The API
layer (`api.update_job`) drops `None` values before calling the store, so
every provided field carries a value. -/
structure JobPatch where
  job_name : Option String
  source_type : Option String
  source_config : Option Config
  sink_type : Option String
  sink_config : Option Config
  query : Option String
  schedule : Option String
  enabled : Option Bool
deriving DecidableEq, Repr

def emptyPatch : JobPatch :=
  ⟨none, none, none, none, none, none, none, none⟩

def patchNonempty (p : JobPatch) : Bool :=
  p.job_name.isSome || p.source_type.isSome || p.source_config.isSome ||
  p.sink_type.isSome || p.sink_config.isSome || p.query.isSome ||
  p.schedule.isSome || p.enabled.isSome

/-- Apply the provided fields of a patch to a job row; `updated_at` is
always refreshed. -/
def applyPatch (j : Job) (p : JobPatch) (now : Nat) : Job :=
  { j with
    job_name := p.job_name.getD j.job_name,
    source_type := p.source_type.getD j.source_type,
    source_config := p.source_config.getD j.source_config,
    sink_type := p.sink_type.getD j.sink_type,
    sink_config := p.sink_config.getD j.sink_config,
    query := match p.query with | some q => some q | none => j.query,
    schedule := match p.schedule with | some s => some s | none => j.schedule,
    enabled := p.enabled.getD j.enabled,
    updated_at := now }

/-- `JobManager.update_job`: returns `false` without touching anything when
no recognised field is provided; renaming onto another job's name violates
the `UNIQUE` constraint; otherwise the matching row (if any) is patched
and the result tells whether a row matched. -/
def update_job (st : DFState) (job_id : Nat) (p : JobPatch) :
    Except String (Bool × DFState) :=
  if patchNonempty p = false then .ok (false, st)
  else if (match p.job_name with
           | some n => st.jobs.any (fun j => j.job_id ≠ job_id ∧ j.job_name = n)
           | none => False) then
    .error "UNIQUE constraint failed: jobs.job_name"
  else
    let (now, st1) := tick st
    let found := st1.jobs.any (fun j => j.job_id = job_id)
    let jobs2 := st1.jobs.map (fun j => if j.job_id = job_id then applyPatch j p now else j)
    .ok (found, { st1 with jobs := jobs2 })

/-- `JobManager.delete_job`: removes the jobs row only. -/
def delete_job (st : DFState) (job_id : Nat) : Bool × DFState :=
  (st.jobs.any (fun j => j.job_id = job_id),
   { st with jobs := st.jobs.filter (fun j => j.job_id ≠ job_id) })

/-- `JobManager.get_job_history`: history rows are inserted with strictly
increasing `started_at` timestamps, so `ORDER BY started_at DESC` is the
reverse of insertion order. -/
def get_job_history (st : DFState) (job_id : Nat) (limit : Nat) :
    List HistoryRecord :=
  ((st.history.filter (fun h => h.job_id = job_id)).reverse).take limit

/-- `JobManager.get_all_history`. -/
def get_all_history (st : DFState) (limit : Nat) : List HistoryRecord :=
  (st.history.reverse).take limit

/-- `JobManager.get_job_logs`: log rows are inserted with strictly
increasing timestamps, so `ORDER BY timestamp` is insertion order. -/
def get_job_logs (st : DFState) (history_id : Nat) : List LogEntry :=
  st.logs.filter (fun l => l.history_id = history_id)

/-! ## Execution engine (`JobManager.execute_job` with `DataFactory`)

The outcomes of the external database connectors (ODBC, PostgreSQL,
MySQL) are not determined by this repository; they are a parameter. -/

/-- Observable outcomes of the external (server-backed) connectors. -/
structure ExtBehavior where
  srcConnect : String → Config → Except String Unit
  srcData : String → Config → String → Except String (List Row)
  srcClose : String → Config → Except String Unit
  snkConnect : String → Config → Except String Unit
  snkWrite : String → Config → String → List Row → Except String Unit
  snkClose : String → Config → Except String Unit

/-- A connected source: file-based connectors hold the loaded frame. -/
inductive ConnSrc where
  | file (rows : List Row)
  | ext (tag : String) (cfg : Config)
deriving DecidableEq, Repr

/-- A connected sink. -/
inductive ConnSnk where
  | sqlite (database_path : String)
  | csvDir (directory : String)
  | jsonDir (directory : String)
  | parquetDir (directory : String)
  | ext (tag : String) (cfg : Config)
deriving DecidableEq, Repr

/-- `SourceConnector.connect`: csv/json/excel load the file (failing when
the path does not exist, or the named worksheet is missing); server-backed
sources behave as the environment dictates. -/
def connectSource (ext : ExtBehavior) (st : DFState) (s : SrcConn) :
    Except String ConnSrc :=
  match s with
  | .csv p =>
    match lookup st.files p with
    | some rows => .ok (.file rows)
    | none => .error ("No such file or directory: " ++ p)
  | .json p =>
    match lookup st.files p with
    | some rows => .ok (.file rows)
    | none => .error ("No such file or directory: " ++ p)
  | .excel p sheet =>
    match lookup st.excelFiles p with
    | none => .error ("No such file or directory: " ++ p)
    | some sheets =>
      match sheet with
      | some nm =>
        match lookup sheets nm with
        | some rows => .ok (.file rows)
        | none => .error ("Worksheet named " ++ nm ++ " not found")
      | none =>
        match sheets with
        | [] => .error ("No sheets found in workbook: " ++ p)
        | (_, rows) :: _ => .ok (.file rows)
  | .ext tag cfg => (ext.srcConnect tag cfg).map (fun _ => .ext tag cfg)

/-- `SinkConnector.connect`: sqlite only builds an engine and the file
sinks only ensure their directory exists, none of which fails. -/
def connectSink (ext : ExtBehavior) (s : SnkConn) : Except String ConnSnk :=
  match s with
  | .sqlite p => .ok (.sqlite p)
  | .csvDir d => .ok (.csvDir d)
  | .jsonDir d => .ok (.jsonDir d)
  | .parquetDir d => .ok (.parquetDir d)
  | .ext tag cfg => (ext.snkConnect tag cfg).map (fun _ => .ext tag cfg)

/-- `SourceConnector.get_data`: file-based sources return the loaded frame
and ignore the query. -/
def sourceGetData (ext : ExtBehavior) (s : ConnSrc) (query : String) :
    Except String (List Row) :=
  match s with
  | .file rows => .ok rows
  | .ext tag cfg => ext.srcData tag cfg query

/-- `SinkConnector.write_data`: sqlite `to_sql(..., if_exists='replace')`
replaces the table; file sinks overwrite path `directory/table.ext`. -/
def sinkWriteData (ext : ExtBehavior) (st : DFState) (s : ConnSnk)
    (rows : List Row) (table : String) : Except String DFState :=
  match s with
  | .sqlite p =>
    let db2 := setAssoc ((lookup st.sinkDBs p).getD []) table rows
    .ok { st with sinkDBs := setAssoc st.sinkDBs p db2 }
  | .csvDir d =>
    .ok { st with files := setAssoc st.files (d ++ "/" ++ table ++ ".csv") rows }
  | .jsonDir d =>
    .ok { st with files := setAssoc st.files (d ++ "/" ++ table ++ ".json") rows }
  | .parquetDir d =>
    .ok { st with files := setAssoc st.files (d ++ "/" ++ table ++ ".parquet") rows }
  | .ext tag cfg => (ext.snkWrite tag cfg table rows).map (fun _ => st)

/-- `SourceConnector.close`: a no-op for file sources. -/
def sourceClose (ext : ExtBehavior) (s : ConnSrc) : Except String Unit :=
  match s with
  | .file _ => .ok ()
  | .ext tag cfg => ext.srcClose tag cfg

/-- `SinkConnector.close`: engine disposal / no-op for local sinks. -/
def sinkClose (ext : ExtBehavior) (s : ConnSnk) : Except String Unit :=
  match s with
  | .ext tag cfg => ext.snkClose tag cfg
  | _ => .ok ()

/-- `job.get('query') or 'SELECT * FROM source'`: `None` and the empty
string are falsy. -/
def effectiveQuery (q : Option String) : String :=
  match q with
  | none => "SELECT * FROM source"
  | some s => if s = "" then "SELECT * FROM source" else s

/-- Python `str.replace` with a single-character pattern. -/
def pyReplaceChar (s : String) (a b : Char) : String :=
  ⟨s.data.map (fun c => if c = a then b else c)⟩

/-- Python `str.lower`. -/
def pyLower (s : String) : String :=
  ⟨s.data.map Char.toLower⟩

/-- `job['job_name'].replace(' ', '_').lower()`. -/
def targetName (name : String) : String :=
  pyLower (pyReplaceChar name ' ' '_')

/-- The pipeline step whose exception sent control to the handler. -/
inductive FailStage where
  | createSource
  | createSink
  | connectSource
  | connectSink
  | extract
  | load
  | closeSource
  | closeSink
deriving DecidableEq, Repr

/-- What happened to the per-run connector objects (they live only inside
one `execute_job` call): which were constructed, which `close` calls were
made, the query string handed to `get_data`, and where the run failed. -/
structure RunTrace where
  sourceConstructed : Bool
  sinkConstructed : Bool
  sourceConnected : Bool
  sinkConnected : Bool
  queryPassed : Option String
  sourceCloseCalled : Bool
  sinkCloseCalled : Bool
  failStage : Option FailStage
deriving DecidableEq, Repr

def emptyTrace : RunTrace :=
  ⟨false, false, false, false, none, false, false, none⟩

/-- The dictionary `execute_job` returns. -/
inductive ExecResult where
  | preflight (message : String)
  | success (history_id records_processed started_at completed_at : Nat)
  | failed (history_id : Nat) (error : String) (started_at completed_at : Nat)
deriving DecidableEq, Repr

structure ExecOutcome where
  result : ExecResult
  trace : RunTrace
  state : DFState
deriving DecidableEq, Repr

/-- `log_message`: INSERT into `job_logs` with `datetime.now()`. -/
def appendLog (st : DFState) (history_id job_id : Nat) (level : LogLevel)
    (message : String) : DFState :=
  let (now, st1) := tick st
  let entry : LogEntry :=
    { log_id := st1.nextLogId, history_id := history_id, job_id := job_id,
      timestamp := now, level := level, message := message }
  { st1 with nextLogId := st1.nextLogId + 1, logs := st1.logs ++ [entry] }

/-- INSERT of the `running` history row at the start of `execute_job`. -/
def beginRun (st : DFState) (job_id : Nat) (job_name : String) :
    Nat × Nat × DFState :=
  let (now, st1) := tick st
  let hid := st1.nextHistoryId
  let rec0 : HistoryRecord :=
    { history_id := hid, job_id := job_id, job_name := job_name,
      started_at := now, completed_at := none, status := .running,
      records_processed := none, error_message := none }
  (hid, now, { st1 with nextHistoryId := hid + 1, history := st1.history ++ [rec0] })

/-- The effect of the success-path UPDATE on the matching row: sets
`completed_at`, `status='success'` and `records_processed`, nothing else. -/
def HistoryRecord.succeededAt (r : HistoryRecord) (now records : Nat) :
    HistoryRecord :=
  { r with completed_at := some now, status := .success,
           records_processed := some records }

/-- The effect of the failure-path UPDATE on the matching row: sets
`completed_at`, `status='failed'` and `error_message`, nothing else
(`records_processed` stays NULL). -/
def HistoryRecord.failedAt (r : HistoryRecord) (now : Nat) (msg : String) :
    HistoryRecord :=
  { r with completed_at := some now, status := .failed,
           error_message := some msg }

/-- The success-path UPDATE against the history table. -/
def completeSuccess (st : DFState) (history_id now records : Nat) : DFState :=
  { st with history := st.history.map (fun h =>
      if h.history_id = history_id then h.succeededAt now records else h) }

/-- The failure-path UPDATE against the history table. -/
def completeFailed (st : DFState) (history_id now : Nat) (msg : String) :
    DFState :=
  { st with history := st.history.map (fun h =>
      if h.history_id = history_id then h.failedAt now msg else h) }

/-- The `except Exception` handler of `execute_job`: log the error, mark
the run failed.  No connector close is attempted on this path. -/
def failRun (st : DFState) (hid jid started : Nat) (msg : String)
    (tr : RunTrace) : ExecOutcome :=
  let st2 := appendLog st hid jid .ERROR ("Job failed: " ++ msg)
  let (completed, st3) := tick st2
  let st4 := completeFailed st3 hid completed msg
  ⟨.failed hid msg started completed, tr, st4⟩

/-- `JobManager.execute_job`, one pass of the extract-load pipeline. -/
def execute_job (ext : ExtBehavior) (st0 : DFState) (job_id : Nat) :
    ExecOutcome :=
  match get_job st0 job_id with
  | none => ⟨.preflight "Job not found", emptyTrace, st0⟩
  | some job =>
    if job.enabled = false then ⟨.preflight "Job is disabled", emptyTrace, st0⟩
    else
      let (hid, started, st1) := beginRun st0 job_id job.job_name
      let st2 := appendLog st1 hid job_id .INFO ("Starting job: " ++ job.job_name)
      match createSourceConnector job.source_type job.source_config with
      | .error e => failRun st2 hid job_id started e
          { emptyTrace with failStage := some .createSource }
      | .ok src =>
        let tr1 : RunTrace := { emptyTrace with sourceConstructed := true }
        let st3 := appendLog st2 hid job_id .INFO
          ("Created source connector: " ++ job.source_type)
        match createSinkConnector job.sink_type job.sink_config with
        | .error e => failRun st3 hid job_id started e
            { tr1 with failStage := some .createSink }
        | .ok snk =>
          let tr2 : RunTrace := { tr1 with sinkConstructed := true }
          let st4 := appendLog st3 hid job_id .INFO
            ("Created sink connector: " ++ job.sink_type)
          match connectSource ext st4 src with
          | .error e => failRun st4 hid job_id started e
              { tr2 with failStage := some .connectSource }
          | .ok csrc =>
            let tr3 : RunTrace := { tr2 with sourceConnected := true }
            match connectSink ext snk with
            | .error e => failRun st4 hid job_id started e
                { tr3 with failStage := some .connectSink }
            | .ok csnk =>
              let tr4 : RunTrace := { tr3 with sinkConnected := true }
              let q := effectiveQuery job.query
              let st5 := appendLog st4 hid job_id .INFO ("Executing query: " ++ q)
              match sourceGetData ext csrc q with
              | .error e => failRun st5 hid job_id started e
                  { tr4 with queryPassed := some q, failStage := some .extract }
              | .ok df =>
                let tr5 : RunTrace := { tr4 with queryPassed := some q }
                let records := df.length
                let st6 := appendLog st5 hid job_id .INFO
                  ("Retrieved " ++ toString records ++ " records")
                let table := targetName job.job_name
                match sinkWriteData ext st6 csnk df table with
                | .error e => failRun st6 hid job_id started e
                    { tr5 with failStage := some .load }
                | .ok st7 =>
                  let st8 := appendLog st7 hid job_id .INFO
                    ("Data written to sink: " ++ table)
                  match sourceClose ext csrc with
                  | .error e => failRun st8 hid job_id started e
                      { tr5 with sourceCloseCalled := true, failStage := some .closeSource }
                  | .ok _ =>
                    let tr6 : RunTrace := { tr5 with sourceCloseCalled := true }
                    match sinkClose ext csnk with
                    | .error e => failRun st8 hid job_id started e
                        { tr6 with sinkCloseCalled := true, failStage := some .closeSink }
                    | .ok _ =>
                      let tr7 : RunTrace := { tr6 with sinkCloseCalled := true }
                      let st9 := appendLog st8 hid job_id .INFO
                        "Job completed successfully"
                      let (completed, st10) := tick st9
                      let st11 := completeSuccess st10 hid completed records
                      ⟨.success hid records started completed, tr7, st11⟩

/-! ## Boundary API (`api.py`)

The scheduler (`apscheduler.BackgroundScheduler`) is an external library:
its trigger map is modelled as data and cron parsing
(`CronTrigger.from_crontab`) as a parameter — only whether it raises, and
with what message, is observable to `api.update_job`. -/

/-- One active trigger in the scheduler: id `"job_{job_id}"`, job name,
cron expression. -/
structure SchedEntry where
  sched_id : String
  name : String
  cron : String
deriving DecidableEq, Repr

/-- API process state: the job-manager database plus the scheduler's
trigger map. -/
structure ApiState where
  db : DFState
  sched : List SchedEntry
deriving DecidableEq, Repr

/-- Response of an API endpoint: a 200 body, the 200 body produced when
the job was saved but scheduling raised, or an HTTPException. -/
inductive ApiResponse where
  | ok (message : String)
  | okSchedFailed (message error : String)
  | httpError (code : Nat) (detail : String)
deriving DecidableEq, Repr

/-- `PUT /jobs/{job_id}` (`api.update_job`).  `cronParse` is the external
`CronTrigger.from_crontab`: `.error msg` when it raises. -/
def api_update_job (cronParse : String → Except String Unit)
    (st : ApiState) (job_id : Nat) (p : JobPatch) : ApiResponse × ApiState :=
  if patchNonempty p = false then
    (.httpError 400 "No update data provided", st)
  else
    match update_job st.db job_id p with
    | .error e => (.httpError 500 e, st)
    | .ok (success, db1) =>
      if success = false then
        (.httpError 404 "Job not found", { st with db := db1 })
      else
        match p.schedule with
        | none => (.ok "Job updated successfully", { st with db := db1 })
        | some schedule =>
          let job_name := ((get_job db1 job_id).map (fun j => j.job_name)).getD ""
          let sched1 := st.sched.filter
            (fun e => e.sched_id ≠ "job_" ++ toString job_id)
          if schedule = "" then
            (.ok "Job updated successfully", { db := db1, sched := sched1 })
          else
            match cronParse schedule with
            | .ok _ =>
              let entry : SchedEntry :=
                { sched_id := "job_" ++ toString job_id, name := job_name,
                  cron := schedule }
              (.ok "Job updated successfully",
               { db := db1, sched := sched1 ++ [entry] })
            | .error e =>
              (.okSchedFailed "Job updated but scheduling failed" e,
               { db := db1, sched := sched1 })

/-! ## Closed-form helpers and concrete fixtures -/

/-- The `running` history row as inserted at the start of `execute_job`
against state `st`. -/
def runningRec (st : DFState) (jid : Nat) (name : String) : HistoryRecord :=
  { history_id := st.nextHistoryId, job_id := jid, job_name := name,
    started_at := st.clock, completed_at := none, status := .running,
    records_processed := none, error_message := none }

/-- The request body `{schedule: expr}` of a `PUT /jobs/{id}` call. -/
def schedPatch (expr : String) : JobPatch :=
  { emptyPatch with schedule := some expr }

/-- The jobs table after the UPDATE of `update_job` ran against `st`. -/
def patchJobs (st : DFState) (jid : Nat) (p : JobPatch) : List Job :=
  st.jobs.map (fun j => if j.job_id = jid then applyPatch j p st.clock else j)

/-- The database state after a successful `update_job` against `st`. -/
def patchedDB (st : DFState) (jid : Nat) (p : JobPatch) : DFState :=
  { st with clock := st.clock + 1, jobs := patchJobs st jid p }

/-- An environment in which every external database system is down. -/
def noExt : ExtBehavior :=
  { srcConnect := fun _ _ => .error "external system unavailable",
    srcData := fun _ _ _ => .error "external system unavailable",
    srcClose := fun _ _ => .error "external system unavailable",
    snkConnect := fun _ _ => .error "external system unavailable",
    snkWrite := fun _ _ _ _ => .error "external system unavailable",
    snkClose := fun _ _ => .error "external system unavailable" }

def rowsW : List Row := [[("id", "1")], [("id", "2")]]

def rowsW2 : List Row := [[("id", "3")]]

/-- A csv-to-sqlite job as stored by `create_job`. -/
def jobW : Job :=
  { job_id := 1, job_name := "My Job", source_type := "csv",
    source_config := [("file_path", "/data/in.csv")], sink_type := "sqlite",
    sink_config := [("database_path", "/data/out.db")], query := none,
    schedule := none, enabled := true, created_at := 0, updated_at := 0 }

/-- A database holding `jobW`, with its input file present. -/
def stW : DFState :=
  { initState with nextJobId := 2, jobs := [jobW], files := [("/data/in.csv", rowsW)] }

def jobDis : Job := { jobW with enabled := false }

def stDis : DFState := { initState with nextJobId := 2, jobs := [jobDis] }

/-- Same job but its sink config omits the required `database_path`. -/
def jobBad : Job := { jobW with sink_config := [] }

def stBad : DFState :=
  { initState with nextJobId := 2, jobs := [jobBad], files := [("/data/in.csv", rowsW)] }

/-- API state: `stW` plus one active trigger for job 1. -/
def apiW : ApiState :=
  { db := stW, sched := [⟨"job_1", "My Job", "0 0 * * *"⟩] }

/-- A cron parser that rejects everything (what `from_crontab` does on a
malformed expression). -/
def wCron : String → Except String Unit :=
  fun _ => .error "Wrong number of fields; got 1, expected 5"

/-! ## Verification -/


theorem appendLog_history (st : DFState) (a b : Nat) (l : LogLevel) (m : String) :
    (appendLog st a b l m).history = st.history := rfl

theorem appendLog_jobs (st : DFState) (a b : Nat) (l : LogLevel) (m : String) :
    (appendLog st a b l m).jobs = st.jobs := rfl

theorem appendLog_files (st : DFState) (a b : Nat) (l : LogLevel) (m : String) :
    (appendLog st a b l m).files = st.files := rfl

theorem appendLog_sinkDBs (st : DFState) (a b : Nat) (l : LogLevel) (m : String) :
    (appendLog st a b l m).sinkDBs = st.sinkDBs := rfl

theorem mapIdOfNe (l : List HistoryRecord) (hid : Nat)
    (f : HistoryRecord → HistoryRecord)
    (h : ∀ r ∈ l, r.history_id ≠ hid) :
    l.map (fun r => if r.history_id = hid then f r else r) = l := by
  induction l with
  | nil => rfl
  | cons x xs ih =>
    simp only [List.map_cons]
    rw [if_neg (h x (List.mem_cons_self x xs)), ih]
    intro r hr
    exact h r (List.mem_cons_of_mem x hr)

theorem completeFailed_append (base : List HistoryRecord) (r : HistoryRecord)
    (st : DFState) (hid now : Nat) (msg : String)
    (hst : st.history = base ++ [r]) (hr : r.history_id = hid)
    (hb : ∀ x ∈ base, x.history_id ≠ hid) :
    (completeFailed st hid now msg).history
      = base ++ [r.failedAt now msg] := by
  simp only [completeFailed, hst, List.map_append, List.map_cons, List.map_nil,
    mapIdOfNe base hid _ hb, if_pos hr]

theorem completeSuccess_append (base : List HistoryRecord) (r : HistoryRecord)
    (st : DFState) (hid now records : Nat)
    (hst : st.history = base ++ [r]) (hr : r.history_id = hid)
    (hb : ∀ x ∈ base, x.history_id ≠ hid) :
    (completeSuccess st hid now records).history
      = base ++ [r.succeededAt now records] := by
  simp only [completeSuccess, hst, List.map_append, List.map_cons, List.map_nil,
    mapIdOfNe base hid _ hb, if_pos hr]

theorem failRun_history (st : DFState) (hid jid s : Nat) (msg : String)
    (tr : RunTrace) (base : List HistoryRecord) (r : HistoryRecord)
    (hst : st.history = base ++ [r]) (hr : r.history_id = hid)
    (hb : ∀ x ∈ base, x.history_id ≠ hid) :
    ∃ c, (failRun st hid jid s msg tr).state.history
      = base ++ [r.failedAt c msg] := by
  refine ⟨(appendLog st hid jid .ERROR ("Job failed: " ++ msg)).clock, ?_⟩
  show (completeFailed _ hid _ msg).history = _
  apply completeFailed_append base r _ hid _ msg _ hr hb
  simp only [appendLog_history]
  exact hst

theorem sinkWriteData_ok (ext : ExtBehavior) (st : DFState) (s : ConnSnk)
    (rows : List Row) (t : String) (st2 : DFState)
    (h : sinkWriteData ext st s rows t = .ok st2) :
    st2.history = st.history ∧ st2.jobs = st.jobs ∧ st2.logs = st.logs
      ∧ st2.nextHistoryId = st.nextHistoryId ∧ st2.clock = st.clock := by
  cases s with
  | sqlite p => simp only [sinkWriteData] at h; cases h; exact ⟨rfl, rfl, rfl, rfl, rfl⟩
  | csvDir d => simp only [sinkWriteData] at h; cases h; exact ⟨rfl, rfl, rfl, rfl, rfl⟩
  | jsonDir d => simp only [sinkWriteData] at h; cases h; exact ⟨rfl, rfl, rfl, rfl, rfl⟩
  | parquetDir d => simp only [sinkWriteData] at h; cases h; exact ⟨rfl, rfl, rfl, rfl, rfl⟩
  | ext tag cfg =>
    simp only [sinkWriteData] at h
    cases hw : ext.snkWrite tag cfg t rows with
    | ok u => rw [hw] at h; cases h; exact ⟨rfl, rfl, rfl, rfl, rfl⟩
    | error e => rw [hw] at h; cases h

theorem accounting_fail_branch (st0 stX : DFState) (jid started : Nat)
    (name e : String) (tr : RunTrace)
    (hfresh : ∀ r ∈ st0.history, r.history_id ≠ st0.nextHistoryId)
    (hx : stX.history = st0.history ++ [runningRec st0 jid name]) :
    ∃ r, (failRun stX st0.nextHistoryId jid started e tr).state.history
        = st0.history ++ [r]
      ∧ r.history_id = st0.nextHistoryId ∧ r.job_id = jid ∧ r.job_name = name
      ∧ (r.status = .success ∨ r.status = .failed)
      ∧ (r.records_processed.isSome ↔ r.status = .success) := by
  obtain ⟨c, hc⟩ := failRun_history stX st0.nextHistoryId jid started e tr
    st0.history (runningRec st0 jid name) hx rfl hfresh
  refine ⟨_, hc, rfl, rfl, rfl, Or.inr rfl, ?_⟩
  simp [HistoryRecord.failedAt, runningRec]

theorem accounting_success_branch (st0 stX : DFState) (jid records : Nat)
    (name : String)
    (hfresh : ∀ r ∈ st0.history, r.history_id ≠ st0.nextHistoryId)
    (hx : stX.history = st0.history ++ [runningRec st0 jid name]) :
    ∃ r, (completeSuccess { stX with clock := stX.clock + 1 } st0.nextHistoryId stX.clock records).history = st0.history ++ [r]
      ∧ r.history_id = st0.nextHistoryId ∧ r.job_id = jid ∧ r.job_name = name
      ∧ (r.status = .success ∨ r.status = .failed)
      ∧ (r.records_processed.isSome ↔ r.status = .success) := by
  have hc := completeSuccess_append st0.history (runningRec st0 jid name)
    { stX with clock := stX.clock + 1 } st0.nextHistoryId stX.clock records hx rfl hfresh
  refine ⟨_, hc, rfl, rfl, rfl, Or.inl rfl, ?_⟩
  simp [HistoryRecord.succeededAt, runningRec]

/-- C1: every execution that reaches BeginRun (an existing, enabled job)
creates exactly one new HistoryRecord, for the fresh `history_id`; it ends
in a terminal status that is success or failed (never still running), and
`records_processed` is set if and only if the terminal status is success —
so a failed run never reports a record count. -/
theorem run_accounting (ext : ExtBehavior) (st : DFState) (jid : Nat) (job : Job)
    (h1 : get_job st jid = some job) (h2 : job.enabled = true)
    (hfresh : ∀ r ∈ st.history, r.history_id ≠ st.nextHistoryId) :
    ∃ r : HistoryRecord,
      (execute_job ext st jid).state.history = st.history ++ [r]
      ∧ r.history_id = st.nextHistoryId ∧ r.job_id = jid
      ∧ r.job_name = job.job_name
      ∧ (r.status = .success ∨ r.status = .failed)
      ∧ (r.records_processed.isSome ↔ r.status = .success) := by
  simp only [execute_job, h1, h2, Bool.true_eq_false, if_false, beginRun, tick]
  split
  · apply accounting_fail_branch st _ jid st.clock job.job_name _ _ hfresh
    simp [appendLog_history, runningRec]
  · split
    · apply accounting_fail_branch st _ jid st.clock job.job_name _ _ hfresh
      simp [appendLog_history, runningRec]
    · split
      · apply accounting_fail_branch st _ jid st.clock job.job_name _ _ hfresh
        simp [appendLog_history, runningRec]
      · split
        · apply accounting_fail_branch st _ jid st.clock job.job_name _ _ hfresh
          simp [appendLog_history, runningRec]
        · split
          · apply accounting_fail_branch st _ jid st.clock job.job_name _ _ hfresh
            simp [appendLog_history, runningRec]
          · split
            · apply accounting_fail_branch st _ jid st.clock job.job_name _ _ hfresh
              simp [appendLog_history, runningRec]
            · rename_i st7 hw
              have h7 := (sinkWriteData_ok _ _ _ _ _ _ hw).1
              split
              · apply accounting_fail_branch st _ jid st.clock job.job_name _ _ hfresh
                simp [appendLog_history, h7, runningRec]
              · split
                · apply accounting_fail_branch st _ jid st.clock job.job_name _ _ hfresh
                  simp [appendLog_history, h7, runningRec]
                · apply accounting_success_branch st _ jid _ job.job_name hfresh
                  simp [appendLog_history, h7, runningRec]


/-- C3: executing an unknown `job_id`, or a job whose `enabled` flag is
false, leaves the whole state untouched (in particular no HistoryRecord is
created) and returns the corresponding pre-flight rejection to the caller. -/
theorem preflight_rejection (ext : ExtBehavior) (st : DFState) (jid : Nat)
    (h : ∀ j, get_job st jid = some j → j.enabled = false) :
    (execute_job ext st jid).state = st
    ∧ ((get_job st jid = none
          ∧ (execute_job ext st jid).result = .preflight "Job not found")
       ∨ (∃ j, get_job st jid = some j ∧ j.enabled = false
          ∧ (execute_job ext st jid).result = .preflight "Job is disabled")) := by
  cases hg : get_job st jid with
  | none => refine ⟨?_, Or.inl ⟨rfl, ?_⟩⟩ <;> simp [execute_job, hg]
  | some j =>
    have hj := h j hg
    refine ⟨?_, Or.inr ⟨j, rfl, hj, ?_⟩⟩ <;> simp [execute_job, hg, hj]

/-- C9: deleting a job removes only the job definition: `get_job`
afterwards returns none, while every HistoryRecord and LogEntry previously
written for that job remains unchanged and retrievable via
`get_job_history` / `get_job_logs`, and all other jobs survive. -/
theorem delete_preserves_history (st : DFState) (jid : Nat) :
    get_job (delete_job st jid).2 jid = none
    ∧ (delete_job st jid).2.history = st.history
    ∧ (delete_job st jid).2.logs = st.logs
    ∧ (∀ lim, get_job_history (delete_job st jid).2 jid lim
        = get_job_history st jid lim)
    ∧ (∀ hid, get_job_logs (delete_job st jid).2 hid = get_job_logs st hid)
    ∧ (∀ j, j ∈ st.jobs → j.job_id ≠ jid → j ∈ (delete_job st jid).2.jobs) := by
  refine ⟨?_, rfl, rfl, fun lim => rfl, fun hid => rfl, ?_⟩
  · simp only [delete_job, get_job]
    rw [List.find?_eq_none]
    intro j hj
    have := List.of_mem_filter hj
    simp only [decide_eq_true_eq] at this
    simp [this]
  · intro j hj hne
    simp only [delete_job]
    exact List.mem_filter.mpr ⟨hj, by simp [hne]⟩


theorem lookup_setAssoc_self (m : List (String × α)) (k : String) (v : α) :
    lookup (setAssoc m k v) k = some v := by
  induction m with
  | nil => simp [setAssoc, lookup]
  | cons kv rest ih =>
    by_cases h : kv.1 = k
    · simp [setAssoc, lookup, h]
    · simp only [setAssoc]
      rw [if_neg h]
      simp only [lookup]
      rw [if_neg h]
      exact ih

theorem charToNatOfNatLt (n : Nat) (h1 : n < 55296) : (Char.ofNat n).toNat = n := by
  rw [Char.ofNat, dif_pos (Or.inl h1)]
  simp [Char.ofNatAux, Char.toNat, UInt32.ofNat', UInt32.toNat]

theorem toLower_ne_space (c : Char) (h : c ≠ ' ') : Char.toLower c ≠ ' ' := by
  unfold Char.toLower
  by_cases hr : 65 ≤ c.toNat ∧ c.toNat ≤ 90
  · simp only [ge_iff_le, if_pos hr]
    intro hEq
    have h3 : (Char.ofNat (c.toNat + 32)).toNat = c.toNat + 32 :=
      charToNatOfNatLt _ (by omega)
    rw [hEq] at h3
    have h4 : (' ').toNat = 32 := rfl
    omega
  · simp only [ge_iff_le, if_neg hr]; exact h

theorem toLower_comm_repl (c : Char) :
    Char.toLower (if c = ' ' then '_' else c)
      = if Char.toLower c = ' ' then '_' else Char.toLower c := by
  by_cases hc : c = ' '
  · subst hc; decide
  · rw [if_neg hc, if_neg (toLower_ne_space c hc)]

theorem mapLowerRepl (l : List Char) :
    (l.map (fun c => if c = ' ' then '_' else c)).map Char.toLower
      = (l.map Char.toLower).map (fun c => if c = ' ' then '_' else c) := by
  induction l with
  | nil => rfl
  | cons c cs ih => simp only [List.map_cons, ih, toLower_comm_repl c]

/-- The code's `replace(' ', '_').lower()` equals the spec's
lowercase-then-replace description, for every string. -/
theorem target_name_spec_eq (name : String) :
    targetName name = pyReplaceChar (pyLower name) ' ' '_' :=
  congrArg String.mk (mapLowerRepl name.data)

/-- C5 (amended): `create_job` fails (with the UNIQUE-constraint error)
exactly when the `job_name` is already taken, so distinctness of stored
job names is preserved by every successful create; on success the created
row has `created_at = updated_at` and `enabled = true`.  (Contrary to the
original claim, empty required fields are NOT rejected — see the
counterexample.) -/
theorem create_job_uniqueness (st : DFState) (nm srcT : String) (srcC : Config)
    (snkT : String) (snkC : Config) (q sch : Option String)
    (hnodup : (st.jobs.map Job.job_name).Nodup) :
    ((∃ e, create_job st nm srcT srcC snkT snkC q sch = .error e)
      ↔ ∃ j ∈ st.jobs, j.job_name = nm)
    ∧ (∀ jid st2, create_job st nm srcT srcC snkT snkC q sch = .ok (jid, st2) →
        ∃ j, st2.jobs = st.jobs ++ [j] ∧ j.job_name = nm
          ∧ j.created_at = j.updated_at ∧ j.enabled = true
          ∧ (st2.jobs.map Job.job_name).Nodup) := by
  constructor
  · by_cases hdup : st.jobs.any (fun j => j.job_name = nm)
    · constructor
      · intro _
        obtain ⟨j, hj, he⟩ := List.any_eq_true.mp hdup
        exact ⟨j, hj, by simpa using he⟩
      · intro _
        exact ⟨"UNIQUE constraint failed: jobs.job_name", by simp [create_job, hdup]⟩
    · constructor
      · intro ⟨e, he⟩
        simp [create_job, hdup] at he
      · intro ⟨j, hj, he⟩
        exact absurd (List.any_eq_true.mpr ⟨j, hj, by simpa using he⟩) hdup
  · intro jid st2 hok
    by_cases hdup : st.jobs.any (fun j => j.job_name = nm)
    · simp [create_job, hdup] at hok
    · simp only [create_job, hdup, Bool.false_eq_true, if_false, tick,
        Except.ok.injEq, Prod.mk.injEq] at hok
      obtain ⟨hjid, hst2⟩ := hok
      refine ⟨_, by rw [← hst2], rfl, rfl, rfl, ?_⟩
      rw [← hst2]
      simp only [List.map_append, List.map_cons, List.map_nil]
      rw [List.nodup_append]
      refine ⟨hnodup, List.nodup_singleton _, ?_⟩
      intro a ha hb
      simp only [List.mem_singleton] at hb
      subst hb
      obtain ⟨j, hj, hje⟩ := List.mem_map.mp ha
      exact hdup (List.any_eq_true.mpr ⟨j, hj, by simp [hje]⟩)


theorem csv_sqlite_run (ext : ExtBehavior) (st : DFState) (jid : Nat) (job : Job)
    (p d : String) (rows : List Row)
    (h1 : get_job st jid = some job) (h2 : job.enabled = true)
    (h3 : job.source_type = "csv") (h4 : job.source_config = [("file_path", p)])
    (h5 : job.sink_type = "sqlite") (h6 : job.sink_config = [("database_path", d)])
    (hf : lookup st.files p = some rows) :
    (execute_job ext st jid).result
        = .success st.nextHistoryId rows.length st.clock (st.clock + 8)
    ∧ (execute_job ext st jid).state.sinkDBs
        = setAssoc st.sinkDBs d
            (setAssoc ((lookup st.sinkDBs d).getD []) (targetName job.job_name) rows)
    ∧ (execute_job ext st jid).state.files = st.files
    ∧ (execute_job ext st jid).state.jobs = st.jobs := by
  simp only [execute_job, h1, h2, Bool.true_eq_false, if_false, beginRun, tick,
    h3, h4, h5, h6, createSourceConnector, createSinkConnector, bindKwargs,
    csvSrcParams, sqliteSnkParams, mkParam, appendLog]
  simp [Except.map, connectSource, connectSink, sourceGetData, sinkWriteData,
    sourceClose, sinkClose, lookup, hf, completeSuccess, effectiveQuery,
    targetName]

/-- C6: running the same enabled csv-to-sqlite job twice, with the source
file holding `rowsA` during the first run and `rowsB` during the second,
leaves the sink's target table containing exactly `rowsB` — the second
load fully replaces the prior contents of the same target, never appends. -/
theorem overwrite_semantics (ext1 ext2 : ExtBehavior) (st : DFState) (jid : Nat)
    (job : Job) (p d : String) (rowsA rowsB : List Row)
    (h1 : get_job st jid = some job) (h2 : job.enabled = true)
    (h3 : job.source_type = "csv") (h4 : job.source_config = [("file_path", p)])
    (h5 : job.sink_type = "sqlite") (h6 : job.sink_config = [("database_path", d)]) :
    (∃ s c, (execute_job ext1 { st with files := setAssoc st.files p rowsA } jid).result
        = .success st.nextHistoryId rowsA.length s c)
    ∧ lookup ((lookup (execute_job ext2
          { (execute_job ext1 { st with files := setAssoc st.files p rowsA } jid).state
            with files := setAssoc (execute_job ext1 { st with files := setAssoc st.files p rowsA } jid).state.files p rowsB } jid).state.sinkDBs d).getD [])
        (targetName job.job_name) = some rowsB := by
  have h1A : get_job { st with files := setAssoc st.files p rowsA } jid = some job := h1
  have hA := csv_sqlite_run ext1 _ jid job p d rowsA h1A h2 h3 h4 h5 h6
    (lookup_setAssoc_self st.files p rowsA)
  refine ⟨⟨st.clock, st.clock + 8, hA.1⟩, ?_⟩
  have h1B : get_job { (execute_job ext1 { st with files := setAssoc st.files p rowsA } jid).state
      with files := setAssoc (execute_job ext1 { st with files := setAssoc st.files p rowsA } jid).state.files p rowsB } jid = some job := by
    show ((execute_job ext1 { st with files := setAssoc st.files p rowsA } jid).state.jobs.find? _) = some job
    rw [hA.2.2.2]
    exact h1
  have hB := csv_sqlite_run ext2 _ jid job p d rowsB h1B h2 h3 h4 h5 h6
    (lookup_setAssoc_self _ p rowsB)
  rw [hB.2.1, lookup_setAssoc_self]
  simp [lookup_setAssoc_self]


theorem failRun_logs (st : DFState) (hid jid s : Nat) (msg : String)
    (tr : RunTrace) :
    ∃ e, (failRun st hid jid s msg tr).state.logs = st.logs ++ [e]
      ∧ e.history_id = hid ∧ e.level = .ERROR
      ∧ e.message = "Job failed: " ++ msg := by
  exact ⟨_, rfl, rfl, rfl, rfl⟩

theorem failRun_history_mem (st : DFState) (hid jid s : Nat) (msg : String)
    (tr : RunTrace) (r : HistoryRecord) (hr : r ∈ st.history)
    (hi : r.history_id = hid) :
    ∃ n, r.failedAt n msg ∈ (failRun st hid jid s msg tr).state.history := by
  refine ⟨(appendLog st hid jid .ERROR ("Job failed: " ++ msg)).clock, ?_⟩
  show _ ∈ (completeFailed _ hid _ msg).history
  simp only [completeFailed]
  refine List.mem_map.mpr ⟨r, ?_, by rw [if_pos hi]⟩
  show r ∈ st.history
  exact hr

theorem failRun_result (st : DFState) (hid jid s : Nat) (msg : String)
    (tr : RunTrace) :
    ∃ c, (failRun st hid jid s msg tr).result = .failed hid msg s c :=
  ⟨_, rfl⟩

theorem failRun_trace (st : DFState) (hid jid s : Nat) (msg : String)
    (tr : RunTrace) : (failRun st hid jid s msg tr).trace = tr := rfl

theorem c2_leaf (stX : DFState) (hid0 jid s0 : Nat) (e : String)
    (tr : RunTrace) (hid : Nat) (msg : String) (s c : Nat)
    (hres : (failRun stX hid0 jid s0 e tr).result = .failed hid msg s c)
    (hmem : ∃ r, r ∈ stX.history ∧ r.history_id = hid0
      ∧ r.records_processed = none)
    (htr : ∀ stg, tr.failStage = some stg → stg ≠ .closeSource →
      stg ≠ .closeSink → tr.sourceCloseCalled = false
      ∧ tr.sinkCloseCalled = false) :
    (∃ le, le ∈ (failRun stX hid0 jid s0 e tr).state.logs ∧ le.history_id = hid
      ∧ le.level = .ERROR ∧ le.message = "Job failed: " ++ msg)
    ∧ (∃ r, r ∈ (failRun stX hid0 jid s0 e tr).state.history
      ∧ r.history_id = hid ∧ r.status = .failed ∧ r.error_message = some msg
      ∧ r.records_processed = none ∧ r.completed_at.isSome)
    ∧ (∀ stg, (failRun stX hid0 jid s0 e tr).trace.failStage = some stg →
        stg ≠ .closeSource → stg ≠ .closeSink →
        (failRun stX hid0 jid s0 e tr).trace.sourceCloseCalled = false
        ∧ (failRun stX hid0 jid s0 e tr).trace.sinkCloseCalled = false) := by
  have hinj : hid0 = hid ∧ e = msg := by
    have := hres
    simp only [failRun] at this
    exact ⟨(ExecResult.failed.injEq _ _ _ _ _ _ _ _).mp this |>.1,
           (ExecResult.failed.injEq _ _ _ _ _ _ _ _).mp this |>.2.1⟩
  obtain ⟨hh, hm⟩ := hinj
  subst hh; subst hm
  refine ⟨?_, ?_, ?_⟩
  · obtain ⟨le, hl, h1, h2, h3⟩ := failRun_logs stX hid0 jid s0 e tr
    exact ⟨le, by rw [hl]; exact List.mem_append_right _ (List.mem_singleton_self _),
      h1, h2, h3⟩
  · obtain ⟨r, hrmem, hrid, hrrec⟩ := hmem
    obtain ⟨n, hn⟩ := failRun_history_mem stX hid0 jid s0 e tr r hrmem hrid
    refine ⟨r.failedAt n e, hn, ?_, rfl, rfl, ?_, rfl⟩
    · show r.history_id = hid0
      exact hrid
    · show r.records_processed = none
      exact hrrec
  · rw [failRun_trace]
    exact htr

/-- C2 (amended): whenever a run fails after BeginRun, an ERROR log with
the exception's message is appended and the history row is marked failed
with that message as `error_message`; but, contrary to the original claim,
the handler attempts NO `close()` on either connector: for every failure
raised at or before the load step, neither close is ever called (closes
happen only on the success path). -/
theorem failure_bookkeeping_no_cleanup (ext : ExtBehavior) (st : DFState)
    (jid hid : Nat) (msg : String) (s c : Nat)
    (hres : (execute_job ext st jid).result = .failed hid msg s c) :
    (∃ e, e ∈ (execute_job ext st jid).state.logs ∧ e.history_id = hid
      ∧ e.level = .ERROR ∧ e.message = "Job failed: " ++ msg)
    ∧ (∃ r, r ∈ (execute_job ext st jid).state.history ∧ r.history_id = hid
      ∧ r.status = .failed ∧ r.error_message = some msg
      ∧ r.records_processed = none ∧ r.completed_at.isSome)
    ∧ (∀ stg, (execute_job ext st jid).trace.failStage = some stg →
        stg ≠ .closeSource → stg ≠ .closeSink →
        (execute_job ext st jid).trace.sourceCloseCalled = false
        ∧ (execute_job ext st jid).trace.sinkCloseCalled = false) := by
  simp only [execute_job, beginRun, tick] at hres ⊢
  cases hg : get_job st jid with
  | none =>
    simp only [hg] at hres
    simp at hres
  | some job =>
    simp only [hg] at hres
    by_cases he : job.enabled = false
    · simp [he] at hres
    · simp only [if_neg he] at hres ⊢
      split
      · rename_i e heq1
        simp only [heq1] at hres
        refine c2_leaf _ _ _ _ _ _ _ _ _ _ hres ⟨runningRec st jid job.job_name, ?_, rfl, rfl⟩ ?_
        · simp [appendLog_history, runningRec]
        · intro stg hstg hn1 hn2
          injection hstg with h
          subst h
          exact ⟨rfl, rfl⟩
      · rename_i src heq1
        split
        · rename_i e heq2
          simp only [heq1, heq2] at hres
          refine c2_leaf _ _ _ _ _ _ _ _ _ _ hres ⟨runningRec st jid job.job_name, ?_, rfl, rfl⟩ ?_
          · simp [appendLog_history, runningRec]
          · intro stg hstg hn1 hn2
            injection hstg with h
            subst h
            exact ⟨rfl, rfl⟩
        · rename_i snk heq2
          split
          · rename_i e heq3
            simp only [heq1, heq2, heq3] at hres
            refine c2_leaf _ _ _ _ _ _ _ _ _ _ hres ⟨runningRec st jid job.job_name, ?_, rfl, rfl⟩ ?_
            · simp [appendLog_history, runningRec]
            · intro stg hstg hn1 hn2
              injection hstg with h
              subst h
              exact ⟨rfl, rfl⟩
          · rename_i csrc heq3
            split
            · rename_i e heq4
              simp only [heq1, heq2, heq3, heq4] at hres
              refine c2_leaf _ _ _ _ _ _ _ _ _ _ hres ⟨runningRec st jid job.job_name, ?_, rfl, rfl⟩ ?_
              · simp [appendLog_history, runningRec]
              · intro stg hstg hn1 hn2
                injection hstg with h
                subst h
                exact ⟨rfl, rfl⟩
            · rename_i csnk heq4
              split
              · rename_i e heq5
                simp only [heq1, heq2, heq3, heq4, heq5] at hres
                refine c2_leaf _ _ _ _ _ _ _ _ _ _ hres ⟨runningRec st jid job.job_name, ?_, rfl, rfl⟩ ?_
                · simp [appendLog_history, runningRec]
                · intro stg hstg hn1 hn2
                  injection hstg with h
                  subst h
                  exact ⟨rfl, rfl⟩
              · rename_i df heq5
                split
                · rename_i e heq6
                  simp only [heq1, heq2, heq3, heq4, heq5, heq6] at hres
                  refine c2_leaf _ _ _ _ _ _ _ _ _ _ hres ⟨runningRec st jid job.job_name, ?_, rfl, rfl⟩ ?_
                  · simp [appendLog_history, runningRec]
                  · intro stg hstg hn1 hn2
                    injection hstg with h
                    subst h
                    exact ⟨rfl, rfl⟩
                · rename_i st7 heq6
                  have h7 := (sinkWriteData_ok _ _ _ _ _ _ heq6).1
                  split
                  · rename_i e heq7
                    simp only [heq1, heq2, heq3, heq4, heq5, heq6, heq7] at hres
                    refine c2_leaf _ _ _ _ _ _ _ _ _ _ hres ⟨runningRec st jid job.job_name, ?_, rfl, rfl⟩ ?_
                    · simp [appendLog_history, h7, runningRec]
                    · intro stg hstg hn1 hn2
                      injection hstg with h
                      subst h
                      exact absurd rfl hn1
                  · rename_i u heq7
                    split
                    · rename_i e heq8
                      simp only [heq1, heq2, heq3, heq4, heq5, heq6, heq7,
                        heq8] at hres
                      refine c2_leaf _ _ _ _ _ _ _ _ _ _ hres ⟨runningRec st jid job.job_name, ?_, rfl, rfl⟩ ?_
                      · simp [appendLog_history, h7, runningRec]
                      · intro stg hstg hn1 hn2
                        injection hstg with h
                        subst h
                        exact absurd rfl hn2
                    · rename_i u2 heq8
                      simp only [heq1, heq2, heq3, heq4, heq5, heq6, heq7,
                        heq8] at hres
                      simp at hres

theorem mem_logs_appendLog (st : DFState) (a b : Nat) (l : LogLevel)
    (m : String) :
    ∃ e, e ∈ (appendLog st a b l m).logs ∧ e.level = l ∧ e.message = m := by
  refine ⟨⟨st.nextLogId, a, b, st.clock, l, m⟩, ?_, rfl, rfl⟩
  show _ ∈ st.logs ++ [_]
  exact List.mem_append_right _ (List.mem_singleton_self _)

theorem appendLog_logs_mono (st : DFState) (a b : Nat) (l : LogLevel)
    (m : String) (e : LogEntry) (h : e ∈ st.logs) :
    e ∈ (appendLog st a b l m).logs := by
  show e ∈ st.logs ++ [_]
  exact List.mem_append_left _ h

theorem failRun_logs_mono (st : DFState) (hid jid s : Nat) (msg : String)
    (tr : RunTrace) (e : LogEntry) (h : e ∈ st.logs) :
    e ∈ (failRun st hid jid s msg tr).state.logs := by
  obtain ⟨le, hl, _, _, _⟩ := failRun_logs st hid jid s msg tr
  rw [hl]
  exact List.mem_append_left _ h

theorem completeSuccess_logs (st : DFState) (h n r : Nat) :
    (completeSuccess st h n r).logs = st.logs := rfl

/-- C10: when a job's `query` field is absent or the empty string, the
engine substitutes the literal `SELECT * FROM source`: whenever the
extraction step is reached, that exact string is what the source connector
receives, and an INFO log records it as the query used. -/
theorem default_query_substitution (ext : ExtBehavior) (st : DFState)
    (jid : Nat) (job : Job)
    (h1 : get_job st jid = some job) (h2 : job.enabled = true)
    (h3 : job.query = none ∨ job.query = some "") :
    ((execute_job ext st jid).trace.queryPassed = none
      ∨ (execute_job ext st jid).trace.queryPassed = some "SELECT * FROM source")
    ∧ ((execute_job ext st jid).trace.queryPassed.isSome = true →
        ∃ e, e ∈ (execute_job ext st jid).state.logs ∧ e.level = .INFO
          ∧ e.message = "Executing query: SELECT * FROM source") := by
  have hq : effectiveQuery job.query = "SELECT * FROM source" := by
    rcases h3 with h | h <;> simp [effectiveQuery, h]
  simp only [execute_job, h1, h2, Bool.true_eq_false, if_false, beginRun, tick]
  split
  · refine ⟨Or.inl rfl, ?_⟩
    intro h
    rw [failRun_trace] at h
    simp [emptyTrace] at h
  · split
    · refine ⟨Or.inl rfl, ?_⟩
      intro h
      rw [failRun_trace] at h
      simp [emptyTrace] at h
    · split
      · refine ⟨Or.inl rfl, ?_⟩
        intro h
        rw [failRun_trace] at h
        simp [emptyTrace] at h
      · split
        · refine ⟨Or.inl rfl, ?_⟩
          intro h
          rw [failRun_trace] at h
          simp [emptyTrace] at h
        · split
          · refine ⟨Or.inr ?_, ?_⟩
            · rw [failRun_trace]
              show some (effectiveQuery job.query) = _
              rw [hq]
            · intro _
              obtain ⟨e0, he0, hl0, hm0⟩ := mem_logs_appendLog
                _ st.nextHistoryId jid .INFO
                ("Executing query: " ++ effectiveQuery job.query)
              refine ⟨e0, failRun_logs_mono _ _ _ _ _ _ _ he0, hl0, ?_⟩
              rw [hm0, hq]
              rfl
          · split
            · refine ⟨Or.inr ?_, ?_⟩
              · rw [failRun_trace]
                show some (effectiveQuery job.query) = _
                rw [hq]
              · intro _
                obtain ⟨e0, he0, hl0, hm0⟩ := mem_logs_appendLog
                  _ st.nextHistoryId jid .INFO
                  ("Executing query: " ++ effectiveQuery job.query)
                refine ⟨e0, failRun_logs_mono _ _ _ _ _ _ _
                  (appendLog_logs_mono _ _ _ _ _ _ he0), hl0, ?_⟩
                rw [hm0, hq]
                rfl
            · rename_i st7 hw
              have h7 := (sinkWriteData_ok _ _ _ _ _ _ hw).2.2.1
              split
              · refine ⟨Or.inr ?_, ?_⟩
                · rw [failRun_trace]
                  show some (effectiveQuery job.query) = _
                  rw [hq]
                · intro _
                  obtain ⟨e0, he0, hl0, hm0⟩ := mem_logs_appendLog
                    _ st.nextHistoryId jid .INFO
                    ("Executing query: " ++ effectiveQuery job.query)
                  refine ⟨e0, failRun_logs_mono _ _ _ _ _ _ _
                    (appendLog_logs_mono _ _ _ _ _ _ ?_), hl0, ?_⟩
                  · rw [h7]
                    exact appendLog_logs_mono _ _ _ _ _ _ he0
                  · rw [hm0, hq]
                    rfl
              · split
                · refine ⟨Or.inr ?_, ?_⟩
                  · rw [failRun_trace]
                    show some (effectiveQuery job.query) = _
                    rw [hq]
                  · intro _
                    obtain ⟨e0, he0, hl0, hm0⟩ := mem_logs_appendLog
                      _ st.nextHistoryId jid .INFO
                      ("Executing query: " ++ effectiveQuery job.query)
                    refine ⟨e0, failRun_logs_mono _ _ _ _ _ _ _
                      (appendLog_logs_mono _ _ _ _ _ _ ?_), hl0, ?_⟩
                    · rw [h7]
                      exact appendLog_logs_mono _ _ _ _ _ _ he0
                    · rw [hm0, hq]
                      rfl
                · refine ⟨Or.inr ?_, ?_⟩
                  · show some (effectiveQuery job.query) = _
                    rw [hq]
                  · intro _
                    obtain ⟨e0, he0, hl0, hm0⟩ := mem_logs_appendLog
                      _ st.nextHistoryId jid .INFO
                      ("Executing query: " ++ effectiveQuery job.query)
                    refine ⟨e0, ?_, hl0, ?_⟩
                    · show e0 ∈ (completeSuccess _ _ _ _).logs
                      rw [completeSuccess_logs]
                      refine appendLog_logs_mono _ _ _ _ _ _ ?_
                      refine appendLog_logs_mono _ _ _ _ _ _ ?_
                      rw [h7]
                      exact appendLog_logs_mono _ _ _ _ _ _ he0
                    · rw [hm0, hq]
                      rfl

theorem bindKwargs_unexpected (cls : String) (params : List PyParam)
    (cfg : Config) (kv : String × String)
    (h : cfg.find? (fun kv => ¬ params.any (fun p => p.pname = kv.1)) = some kv) :
    bindKwargs cls params cfg = .error (unexpectedKwargMsg cls kv.1) := by
  unfold bindKwargs
  rw [h]

theorem bindKwargs_missing_one (cls nm : String) (cfg : Config)
    (hnone : cfg.find?
      (fun kv => ¬ [mkParam nm true].any (fun p => p.pname = kv.1)) = none)
    (hmiss : cfg.any (fun kv => kv.1 = nm) = false) :
    bindKwargs cls [mkParam nm true] cfg = .error (missingArgMsg cls [nm]) := by
  unfold bindKwargs
  rw [hnone]
  simp [mkParam, hmiss]

/-- C4 (amended): building a connector from a config with an unknown key
is NOT tolerated — it fails with an error naming the offending key
(contrary to the original claim, see the counterexample); a config missing
a required key fails with an error naming the missing key; and when such a
failure happens during a run (sqlite sink with `database_path` omitted),
the run ends failed with exactly that error message persisted. -/
theorem connector_config_errors (ext : ExtBehavior) (st : DFState) (jid : Nat)
    (job : Job) (p : String) :
    (∀ cfg kv, cfg.find?
        (fun kv => ¬ csvSrcParams.any (fun p => p.pname = kv.1)) = some kv →
      createSourceConnector "csv" cfg
        = .error (unexpectedKwargMsg "CSVSourceConnector" kv.1))
    ∧ (∀ cfg, cfg.find?
        (fun kv => ¬ csvSrcParams.any (fun p => p.pname = kv.1)) = none
        → cfg.any (fun kv => kv.1 = "file_path") = false
        → createSourceConnector "csv" cfg
            = .error (missingArgMsg "CSVSourceConnector" ["file_path"]))
    ∧ (get_job st jid = some job → job.enabled = true →
        job.source_type = "csv" → job.source_config = [("file_path", p)] →
        job.sink_type = "sqlite" → job.sink_config = [] →
        (∀ r ∈ st.history, r.history_id ≠ st.nextHistoryId) →
        (execute_job ext st jid).result
          = .failed st.nextHistoryId
              (missingArgMsg "SQLiteSinkConnector" ["database_path"])
              st.clock (st.clock + 4)
        ∧ (execute_job ext st jid).state.history
          = st.history ++ [(runningRec st jid job.job_name).failedAt (st.clock + 4)
              (missingArgMsg "SQLiteSinkConnector" ["database_path"])]) := by
  refine ⟨?_, ?_, ?_⟩
  · intro cfg kv h
    have hc : createSourceConnector "csv" cfg
        = (bindKwargs "CSVSourceConnector" csvSrcParams cfg).map
            (fun _ => SrcConn.csv ((lookup cfg "file_path").getD "")) := rfl
    rw [hc, bindKwargs_unexpected "CSVSourceConnector" csvSrcParams cfg kv h]
    rfl
  · intro cfg hnone hmiss
    have hc : createSourceConnector "csv" cfg
        = (bindKwargs "CSVSourceConnector" csvSrcParams cfg).map
            (fun _ => SrcConn.csv ((lookup cfg "file_path").getD "")) := rfl
    rw [hc]
    rw [show csvSrcParams = [mkParam "file_path" true] from rfl] at hnone ⊢
    rw [bindKwargs_missing_one "CSVSourceConnector" "file_path" cfg hnone hmiss]
    rfl
  · intro h1 h2 h3 h4 h5 h6 hfresh
    simp only [execute_job, h1, h2, Bool.true_eq_false, if_false, beginRun,
      tick, h3, h4, h5, h6, createSourceConnector, createSinkConnector,
      bindKwargs, csvSrcParams, sqliteSnkParams, mkParam, appendLog]
    constructor
    · simp [Except.map, failRun, appendLog, tick, completeFailed,
        missingArgMsg, runningRec, HistoryRecord.failedAt]
    · simp [Except.map, failRun, appendLog, tick, completeFailed,
        missingArgMsg, runningRec, HistoryRecord.failedAt]
      exact mapIdOfNe _ _ _ hfresh

theorem find_map_patch (l : List Job) (jid : Nat) (f : Job → Job)
    (hf : ∀ j, (f j).job_id = j.job_id) (j : Job)
    (h : l.find? (fun x => x.job_id = jid) = some j) :
    (l.map (fun x => if x.job_id = jid then f x else x)).find?
      (fun x => x.job_id = jid) = some (f j) := by
  induction l with
  | nil => simp at h
  | cons a l ih =>
    by_cases ha : a.job_id = jid
    · rw [List.find?_cons_of_pos _ (by simp [ha])] at h
      cases h
      simp only [List.map_cons, if_pos ha]
      rw [List.find?_cons_of_pos _ (by simp [hf, ha])]
    · rw [List.find?_cons_of_neg _ (by simp [ha])] at h
      simp only [List.map_cons, if_neg ha]
      rw [List.find?_cons_of_neg _ (by simp [ha])]
      exact ih h

/-- C8: updating an existing job's schedule to a malformed cron
expression persists the new `schedule` value in the job store, the call
still returns the 200-class saved-but-not-scheduled response, and the
scheduler holds no active trigger for that job afterwards. -/
theorem schedule_decoupled (cronParse : String → Except String Unit)
    (st : ApiState) (jid : Nat) (job : Job) (expr e : String)
    (h1 : get_job st.db jid = some job) (h2 : expr ≠ "")
    (h3 : cronParse expr = .error e) :
    (api_update_job cronParse st jid (schedPatch expr)).1
      = .okSchedFailed "Job updated but scheduling failed" e
    ∧ (∃ j2, get_job (api_update_job cronParse st jid (schedPatch expr)).2.db jid
          = some j2 ∧ j2.schedule = some expr ∧ j2.job_name = job.job_name)
    ∧ (∀ en ∈ (api_update_job cronParse st jid (schedPatch expr)).2.sched,
        en.sched_id ≠ "job_" ++ toString jid) := by
  have hfound : st.db.jobs.any (fun j => j.job_id = jid) = true := by
    rw [List.any_eq_true]
    exact ⟨job, List.mem_of_find?_eq_some h1, by simpa using List.find?_some h1⟩
  have hupd : update_job st.db jid (schedPatch expr)
      = .ok (true, patchedDB st.db jid (schedPatch expr)) := by
    unfold update_job
    rw [if_neg (by simp [patchNonempty, schedPatch, emptyPatch])]
    rw [if_neg (by simp [schedPatch, emptyPatch])]
    simp only [tick, hfound]
    simp only [patchedDB, patchJobs]
  have hget2 : get_job (patchedDB st.db jid (schedPatch expr)) jid
      = some (applyPatch job (schedPatch expr) st.db.clock) := by
    show ((patchedDB st.db jid (schedPatch expr)).jobs.find? _) = _
    simp only [patchedDB, patchJobs]
    exact find_map_patch st.db.jobs jid
      (fun j => applyPatch j (schedPatch expr) st.db.clock) (fun j => rfl) job h1
  have hstep : api_update_job cronParse st jid (schedPatch expr)
      = (.okSchedFailed "Job updated but scheduling failed" e,
         ⟨patchedDB st.db jid (schedPatch expr),
          st.sched.filter (fun en => en.sched_id ≠ "job_" ++ toString jid)⟩) := by
    have hne : patchNonempty (schedPatch expr) = true := by
      simp [patchNonempty, schedPatch, emptyPatch]
    have hsched : (schedPatch expr).schedule = some expr := rfl
    simp [api_update_job, hne, hupd, hsched, h3, h2]
  refine ⟨?_, ?_, ?_⟩
  · rw [hstep]
  · rw [hstep]
    exact ⟨applyPatch job (schedPatch expr) st.db.clock, hget2,
      by simp [applyPatch, schedPatch, emptyPatch],
      by simp [applyPatch, schedPatch, emptyPatch]⟩
  · rw [hstep]
    intro en hen
    have := List.of_mem_filter hen
    simpa using this

/-- C7: the sink target name is a deterministic pure function of the job
name — the job name lowercased with every space replaced by an underscore
(the code's replace-then-lower order coincides) — and every successful run
of a csv-to-sqlite job writes its rows under exactly that target. -/
theorem target_name_deterministic :
    (∀ name, targetName name = pyReplaceChar (pyLower name) ' ' '_')
    ∧ (∀ ext st jid job p d rows,
        get_job st jid = some job → job.enabled = true →
        job.source_type = "csv" → job.source_config = [("file_path", p)] →
        job.sink_type = "sqlite" → job.sink_config = [("database_path", d)] →
        lookup st.files p = some rows →
        lookup ((lookup (execute_job ext st jid).state.sinkDBs d).getD [])
          (targetName job.job_name) = some rows) := by
  constructor
  · exact target_name_spec_eq
  · intro ext st jid job p d rows h1 h2 h3 h4 h5 h6 hf
    have h := csv_sqlite_run ext st jid job p d rows h1 h2 h3 h4 h5 h6 hf
    rw [h.2.1, lookup_setAssoc_self]
    simp [lookup_setAssoc_self]

/-- C2 counterexample: a concrete run (sink config missing its required
key) in which the source connector was successfully constructed, the run
failed, and yet `Source.close()` was never attempted — refuting the claim
that close is attempted for every constructed connector. -/
theorem no_cleanup_on_failure_cex :
    (execute_job noExt stBad 1).trace.sourceConstructed = true
    ∧ (∃ hid msg s c, (execute_job noExt stBad 1).result = .failed hid msg s c)
    ∧ (execute_job noExt stBad 1).trace.sourceCloseCalled = false :=
  ⟨rfl, ⟨1, missingArgMsg "SQLiteSinkConnector" ["database_path"], 0, 4, rfl⟩, rfl⟩

/-- C4 counterexample: a csv source config with an extra unknown key is
not tolerated — construction fails naming the unexpected key. -/
theorem extra_key_rejected_cex :
    createSourceConnector "csv" [("file_path", "f"), ("extra", "1")]
      = .error (unexpectedKwargMsg "CSVSourceConnector" "extra") := rfl

/-- C5 counterexample: creating a job in which every required field is
empty succeeds — no ValidationError is raised for empty fields. -/
theorem empty_name_accepted_cex :
    ∃ v, create_job initState "" "" [] "" [] none none = .ok v := ⟨_, rfl⟩

/-- C1 witness -/
theorem run_accounting_witness :
    ∃ r : HistoryRecord,
      (execute_job noExt stW 1).state.history = stW.history ++ [r]
      ∧ r.history_id = stW.nextHistoryId ∧ r.job_id = 1
      ∧ r.job_name = jobW.job_name
      ∧ (r.status = .success ∨ r.status = .failed)
      ∧ (r.records_processed.isSome ↔ r.status = .success) :=
  run_accounting noExt stW 1 jobW rfl rfl (by simp [stW, initState])

/-- C2 witness -/
theorem failure_bookkeeping_no_cleanup_witness :
    (∃ e, e ∈ (execute_job noExt stBad 1).state.logs ∧ e.history_id = 1
      ∧ e.level = .ERROR
      ∧ e.message = "Job failed: "
          ++ missingArgMsg "SQLiteSinkConnector" ["database_path"])
    ∧ (∃ r, r ∈ (execute_job noExt stBad 1).state.history ∧ r.history_id = 1
      ∧ r.status = .failed
      ∧ r.error_message = some (missingArgMsg "SQLiteSinkConnector" ["database_path"])
      ∧ r.records_processed = none ∧ r.completed_at.isSome)
    ∧ (∀ stg, (execute_job noExt stBad 1).trace.failStage = some stg →
        stg ≠ .closeSource → stg ≠ .closeSink →
        (execute_job noExt stBad 1).trace.sourceCloseCalled = false
        ∧ (execute_job noExt stBad 1).trace.sinkCloseCalled = false) :=
  failure_bookkeeping_no_cleanup noExt stBad 1 1
    (missingArgMsg "SQLiteSinkConnector" ["database_path"]) 0 4 rfl

/-- C3 witness -/
theorem preflight_rejection_witness :
    (execute_job noExt stDis 1).state = stDis
    ∧ ((get_job stDis 1 = none
          ∧ (execute_job noExt stDis 1).result = .preflight "Job not found")
       ∨ (∃ j, get_job stDis 1 = some j ∧ j.enabled = false
          ∧ (execute_job noExt stDis 1).result = .preflight "Job is disabled")) :=
  preflight_rejection noExt stDis 1
    (fun j hj => by
      rw [show get_job stDis 1 = some jobDis from rfl] at hj
      injection hj with hh
      rw [← hh]
      rfl)

/-- C4 witness -/
theorem connector_config_errors_witness :
    (execute_job noExt stBad 1).result
      = .failed stBad.nextHistoryId
          (missingArgMsg "SQLiteSinkConnector" ["database_path"])
          stBad.clock (stBad.clock + 4)
    ∧ (execute_job noExt stBad 1).state.history
      = stBad.history ++ [(runningRec stBad 1 jobBad.job_name).failedAt
          (stBad.clock + 4) (missingArgMsg "SQLiteSinkConnector" ["database_path"])] :=
  (connector_config_errors noExt stBad 1 jobBad "/data/in.csv").2.2
    rfl rfl rfl rfl rfl rfl (by simp [stBad, initState])

/-- C5 witness -/
theorem create_job_uniqueness_witness :
    ((∃ e, create_job stW "My Job" "csv" [] "sqlite" [] none none = .error e)
      ↔ ∃ j ∈ stW.jobs, j.job_name = "My Job")
    ∧ (∀ jid st2, create_job stW "My Job" "csv" [] "sqlite" [] none none
        = .ok (jid, st2) →
        ∃ j, st2.jobs = stW.jobs ++ [j] ∧ j.job_name = "My Job"
          ∧ j.created_at = j.updated_at ∧ j.enabled = true
          ∧ (st2.jobs.map Job.job_name).Nodup) :=
  create_job_uniqueness stW "My Job" "csv" [] "sqlite" [] none none
    (by simp [stW, initState, jobW])

/-- C6 witness -/
theorem overwrite_semantics_witness :
    (∃ s c, (execute_job noExt
        { stW with files := setAssoc stW.files "/data/in.csv" rowsW } 1).result
      = .success stW.nextHistoryId rowsW.length s c)
    ∧ lookup ((lookup (execute_job noExt
          { (execute_job noExt { stW with files := setAssoc stW.files "/data/in.csv" rowsW } 1).state
            with files := setAssoc (execute_job noExt { stW with files := setAssoc stW.files "/data/in.csv" rowsW } 1).state.files "/data/in.csv" rowsW2 } 1).state.sinkDBs "/data/out.db").getD [])
        (targetName jobW.job_name) = some rowsW2 :=
  overwrite_semantics noExt noExt stW 1 jobW "/data/in.csv" "/data/out.db"
    rowsW rowsW2 rfl rfl rfl rfl rfl rfl

/-- C7 witness -/
theorem target_name_deterministic_witness :
    targetName "My Job" = pyReplaceChar (pyLower "My Job") ' ' '_'
    ∧ lookup ((lookup (execute_job noExt stW 1).state.sinkDBs "/data/out.db").getD [])
        (targetName jobW.job_name) = some rowsW :=
  ⟨target_name_deterministic.1 "My Job",
   target_name_deterministic.2 noExt stW 1 jobW "/data/in.csv" "/data/out.db"
     rowsW rfl rfl rfl rfl rfl rfl rfl⟩

/-- C8 witness -/
theorem schedule_decoupled_witness :
    (api_update_job wCron apiW 1 (schedPatch "not-a-cron")).1
      = .okSchedFailed "Job updated but scheduling failed"
          "Wrong number of fields; got 1, expected 5"
    ∧ (∃ j2, get_job (api_update_job wCron apiW 1 (schedPatch "not-a-cron")).2.db 1
          = some j2 ∧ j2.schedule = some "not-a-cron" ∧ j2.job_name = jobW.job_name)
    ∧ (∀ en ∈ (api_update_job wCron apiW 1 (schedPatch "not-a-cron")).2.sched,
        en.sched_id ≠ "job_" ++ toString 1) :=
  schedule_decoupled wCron apiW 1 jobW "not-a-cron"
    "Wrong number of fields; got 1, expected 5" rfl (by decide) rfl

/-- C9 witness -/
theorem delete_preserves_history_witness :
    get_job (delete_job stW 1).2 1 = none
    ∧ (delete_job stW 1).2.history = stW.history
    ∧ (delete_job stW 1).2.logs = stW.logs
    ∧ (∀ lim, get_job_history (delete_job stW 1).2 1 lim
        = get_job_history stW 1 lim)
    ∧ (∀ hid, get_job_logs (delete_job stW 1).2 hid = get_job_logs stW hid)
    ∧ (∀ j, j ∈ stW.jobs → j.job_id ≠ 1 → j ∈ (delete_job stW 1).2.jobs) :=
  delete_preserves_history stW 1

/-- C10 witness -/
theorem default_query_substitution_witness :
    ((execute_job noExt stW 1).trace.queryPassed = none
      ∨ (execute_job noExt stW 1).trace.queryPassed = some "SELECT * FROM source")
    ∧ ((execute_job noExt stW 1).trace.queryPassed.isSome = true →
        ∃ e, e ∈ (execute_job noExt stW 1).state.logs ∧ e.level = .INFO
          ∧ e.message = "Executing query: SELECT * FROM source") :=
  default_query_substitution noExt stW 1 jobW rfl rfl (Or.inl rfl)

end DataFactory
